import Mathlib

/-!
Verification development for the `pip-download` tool (`pipdownload/cli.py`).

The whole program is the single Click command `pipdownload`.  We embed its
decision logic shallowly:

* filenames are lists of characters (`Str`);
* Python's substring test `tag in file` is `subStr`, and
  `file_name.endswith(ext)` is `endsW`;
* the per-candidate download decision (cli.py lines 214-249) is `processFile`;
* the config/CLI option merge (cli.py lines 128-153) is `mergeFilterOptions`;
* the timezone-based index-url override (cli.py lines 145-147) is
  `effectiveIndexUrl`;
* the per-package orchestration loop (cli.py lines 201-249) is `orchestrate`,
  and the batch loop with the external resolver (cli.py lines 172-200) is
  `runBatch`, with the resolver, the filename classifier
  (`resolve_package_file`) and the index page parser (`get_file_links`)
  as abstract collaborator parameters.
-/

/-- A filename or tag, modelled as its list of characters. -/
abbrev Str := List Char

/-- Characters of a string literal. -/
def chars (s : String) : Str := s.toList

/-- Boolean test that `p` is a prefix of `s` (character by character). -/
def hasPre : Str → Str → Bool
  | [], _ => true
  | _ :: _, [] => false
  | a :: as, b :: bs => a == b && hasPre as bs

/-- Python's substring containment `p in s`: `p` occurs contiguously in `s`. -/
def subStr (pat : Str) : Str → Bool
  | [] => hasPre pat []
  | b :: bs => hasPre pat (b :: bs) || subStr pat bs

/-- Python's `s.endswith(pat)`. -/
def endsW (pat s : Str) : Bool := hasPre pat.reverse s.reverse

/-- The literal universal-wheel marker tested at cli.py line 216. -/
def noneAny : Str := chars "none-any"

/-- The source-archive extension tested at cli.py line 220. -/
def tarGz : Str := chars ".tar.gz"

/-- The other source-archive extension tested at cli.py line 220. -/
def zipExt : Str := chars ".zip"

/-- The filter state of a run: the effective `platform_tags` and
`python_versions` values and the `--no-source` flag, as used by the
candidate loop of cli.py lines 214-249. -/
structure FilterSpec where
  platform_tags : List Str
  python_versions : List Str
  no_source : Bool

/-- One axis loop of cli.py (lines 231-236 and 241-246): iterate the tags;
on a substring match set `eligible := true` and break, otherwise set
`eligible := false` and continue.  `b` is the value of `eligible` on entry
(only visible when the list is empty, in which case the code never runs
the loop). -/
def axisLoop (tags : List Str) (file : Str) (b : Bool) : Bool :=
  match tags with
  | [] => b
  | tag :: rest => if subStr tag file then true else axisLoop rest file false

/-- The per-candidate download decision of cli.py lines 214-249: `file_name`
is the name of the file the external resolver materialized in the temporary
directory (the variable of the loop at line 203), `file` is the candidate
link from the index project page.  Returns `true` exactly when
`download(file, dest_dir)` is executed.  Note the source-archive test at
line 220 inspects `file_name`, not `file`. -/
def processFile (file_name : Str) (spec : FilterSpec) (file : Str) : Bool :=
  if subStr noneAny file then
    true
  else if (endsW tarGz file_name || endsW zipExt file_name) && !spec.no_source then
    true
  else
    let eligible :=
      if !spec.platform_tags.isEmpty then axisLoop spec.platform_tags file true
      else true
    if !eligible then
      false
    else
      if !spec.python_versions.isEmpty then axisLoop spec.python_versions file eligible
      else eligible

/-- A Python value that is either `None` or a list/tuple of tag strings, as
held by the `python_versions` / `platform_tags` / `whl_suffixes` variables
of `pipdownload` during the option merge. -/
abbrev PyTags := Option (List Str)

/-- Python truthiness of such a value: `None` and the empty sequence are
falsy, a non-empty sequence is truthy. -/
def truthy : PyTags → Bool
  | none => false
  | some l => !l.isEmpty

/-- Result of `settings_dict.get(key, None)` for the two keys the code reads:
`none` models an absent key (or an empty parsed dict). -/
structure SettingsDict where
  python_versions : PyTags
  platform_tags : PyTags

/-- State of the persisted configuration file at `SETTINGS_FILE`. -/
inductive ConfigFile where
  | absent
  | malformed
  | valid (d : SettingsDict)

/-- Result of lines 128-133: `none` when the file does not exist (the whole
block is skipped); malformed JSON is caught (`json.decoder.JSONDecodeError`)
and replaced by the empty dict. -/
def parsedSettings : ConfigFile → Option SettingsDict
  | .absent => none
  | .malformed => some ⟨none, none⟩
  | .valid d => some d

/-- The repeatable filter options as supplied on the command line (Click
gives each as a possibly-empty tuple). -/
structure CliOptions where
  python_versions : List Str
  platform_tags : List Str
  whl_suffixes : List Str

/-- The option merge of cli.py lines 128-153, returning the final values of
the `python_versions` and `platform_tags` variables (in that order).  When
the settings file exists: `python_versions` falls back to the config when
the CLI tuple is falsy (line 135), while `platform_tags` is replaced by the
config value whenever `not whl_suffixes or not platform_tags` holds
(line 140).  Afterwards a truthy `whl_suffixes` overrides `platform_tags`
(lines 149-153). -/
def mergeFilterOptions (cfg : ConfigFile) (cli : CliOptions) : PyTags × PyTags :=
  let pv : PyTags := some cli.python_versions
  let pt : PyTags := some cli.platform_tags
  let sfx : PyTags := some cli.whl_suffixes
  let merged :=
    match parsedSettings cfg with
    | none => (pv, pt)
    | some d =>
      (if !truthy pv then d.python_versions else pv,
       if !truthy sfx || !truthy pt then d.platform_tags else pt)
  (merged.1, if truthy sfx then sfx else merged.2)

/-- Downstream the merged value is only used through Python truthiness and
iteration, so `None` acts as the empty tag list. -/
def toTags : PyTags → List Str
  | none => []
  | some l => l

/-- The `FilterSpec` the candidate loop actually runs with, for a given
config-file state and command line. -/
def effectiveFilterSpec (cfg : ConfigFile) (cli : CliOptions) (ns : Bool) :
    FilterSpec :=
  let merged := mergeFilterOptions cfg cli
  ⟨toTags merged.2, toTags merged.1, ns⟩

/-- The mirror URL substituted at cli.py line 147. -/
def aliyunMirror : String := "https://mirrors.aliyun.com/pypi/simple/"

/-- The timezone identifiers tested at cli.py line 146. -/
def mirrorZones : List String := ["Asia/Shanghai", "Asia/Chongqing"]

/-- The index URL used for the rest of the run (cli.py lines 145-147):
both the `pip download` invocation (line 186) and the project-page URL
(line 211) read the `index_url` variable after this assignment. -/
def effectiveIndexUrl (tzZone index_url : String) : String :=
  if tzZone ∈ mirrorZones then aliyunMirror else index_url

/-- The packages the batch loop at cli.py line 172 iterates over:
`itertools.chain(packages_extra, packages)`, where `packages_extra` is the
set comprehension over the parsed requirements file (deduplicated, modelled
by `List.dedup`) and `packages` is the positional tuple. -/
def batchSpecs (reqEntries packages : List String) : List String :=
  reqEntries.dedup ++ packages

/-- Outcome of the per-file loop at cli.py lines 203-249 for one
materialized file: either the warning-and-skip of lines 205-210, or the
list of candidates downloaded for it. -/
inductive FileOutcome where
  | warned (file_name : Str)
  | fetched (file_name : Str) (downloads : List Str)
deriving DecidableEq

/-- The per-package orchestration loop (cli.py lines 203-249): for each file
the resolver materialized, classify it with `resolve_package_file`
(abstracted as `classify`, returning `none` when the name cannot be
resolved); on `none` log a warning and `continue`; otherwise list the
candidates of the project page (`get_file_links`, abstracted as
`candidatesOf`) and download every candidate accepted by the decision of
lines 214-249. -/
def orchestrate (classify : Str → Option Str) (candidatesOf : Str → List Str)
    (spec : FilterSpec) (files : List Str) : List FileOutcome :=
  files.map fun fn =>
    match classify fn with
    | none => .warned fn
    | some name => .fetched fn ((candidatesOf name).filter (processFile fn spec))

/-- The files a `FileOutcome` put into the destination directory. -/
def outcomeDownloads : FileOutcome → List Str
  | .warned _ => []
  | .fetched _ ds => ds

/-- All files one package's processing downloads into the destination. -/
def packageDownloads (classify : Str → Option Str)
    (candidatesOf : Str → List Str) (spec : FilterSpec) (files : List Str) :
    List Str :=
  ((orchestrate classify candidatesOf spec files).map outcomeDownloads).flatten

/-- The batch loop of cli.py lines 172-200: per package invoke the external
resolver (`subprocess.check_call` of `pip download`, abstracted as
`resolve`, `none` modelling a nonzero exit status); on failure the
`CalledProcessError` is logged and re-raised, terminating the run with the
destination directory in its current state (modelled as
`.error (package, dest)`); on success the package's accepted candidates are
downloaded into the destination and the loop continues. -/
def runBatch (resolve : String → Option (List Str))
    (classify : Str → Option Str) (candidatesOf : Str → List Str)
    (spec : FilterSpec) (dest : List Str) : List String → Except (String × List Str) (List Str)
  | [] => .ok dest
  | p :: ps =>
    match resolve p with
    | none => .error (p, dest)
    | some files =>
      runBatch resolve classify candidatesOf spec
        (dest ++ packageDownloads classify candidatesOf spec files) ps

/-- The downloads accumulated by a run of the batch loop over packages whose
resolution succeeds. -/
def batchDownloads (resolve : String → Option (List Str))
    (classify : Str → Option Str) (candidatesOf : Str → List Str)
    (spec : FilterSpec) : List String → List Str
  | [] => []
  | p :: ps =>
    (match resolve p with
     | none => []
     | some files => packageDownloads classify candidatesOf spec files) ++
      batchDownloads resolve classify candidatesOf spec ps

theorem hasPre_iff : ∀ (p s : Str), hasPre p s = true ↔ p <+: s
  | [], s => by simp [hasPre]
  | _ :: _, [] => by simp [hasPre]
  | a :: as, b :: bs => by
    simp [hasPre, List.cons_prefix_cons, hasPre_iff as bs, Bool.and_eq_true]

theorem subStr_iff : ∀ (p s : Str), subStr p s = true ↔ p <:+: s
  | p, [] => by simp [subStr, hasPre_iff]
  | p, b :: bs => by
    simp [subStr, hasPre_iff, subStr_iff p bs, List.infix_cons_iff]

theorem endsW_iff (p s : Str) : endsW p s = true ↔ p <:+ s := by
  simp [endsW, hasPre_iff, List.reverse_prefix]

theorem axisLoop_eq (tags : List Str) (file : Str) (b : Bool) :
    axisLoop tags file b =
      if tags.isEmpty then b else tags.any (fun t => subStr t file) := by
  induction tags generalizing b with
  | nil => rfl
  | cons t rest ih =>
    simp only [axisLoop, ih, List.any_cons, List.isEmpty_cons, if_false, Bool.false_eq_true]
    cases h : subStr t file <;> cases rest <;> simp [h]

theorem isEmpty_false_of_ne_nil {l : List Str} (h : l ≠ []) : l.isEmpty = false := by
  cases l with
  | nil => exact absurd rfl h
  | cons a as => rfl

theorem processFile_eq (fn : Str) (spec : FilterSpec) (file : Str) :
    processFile fn spec file =
      (subStr noneAny file ||
        ((endsW tarGz fn || endsW zipExt fn) && !spec.no_source) ||
        ((spec.platform_tags.isEmpty ||
            spec.platform_tags.any (fun t => subStr t file)) &&
         (spec.python_versions.isEmpty ||
            spec.python_versions.any (fun v => subStr v file)))) := by
  simp only [processFile, axisLoop_eq]
  cases h1 : subStr noneAny file <;>
  cases h2 : (endsW tarGz fn || endsW zipExt fn) && !spec.no_source <;>
  cases hp : spec.platform_tags.isEmpty <;>
  cases hq : spec.python_versions.isEmpty <;>
  cases ha : spec.platform_tags.any (fun t => subStr t file) <;>
  cases hb : spec.python_versions.any (fun v => subStr v file) <;>
  simp [h1, h2, hp, hq, ha, hb]

/-- Claim C5: every candidate filename containing the literal substring
`none-any` is accepted and downloaded by the candidate loop, for every
FilterSpec whatsoever — including one whose platform and python-version
tags match nothing and one with `--no-source` given. -/
theorem c5_none_any_universal (file_name file : Str) (spec : FilterSpec)
    (h : subStr noneAny file = true) :
    processFile file_name spec file = true := by
  simp [processFile, h]

theorem c5_none_any_universal_witness :
    processFile (chars "pkg-1.0-cp39-cp39-win_amd64.whl")
      ⟨[chars "impossible-tag"], [chars "impossible-version"], true⟩
      (chars "pkg-1.0-py3-none-any.whl") = true :=
  c5_none_any_universal _ _ _ (by decide)

/-- Claim C10: when both filter axes are empty every candidate on the index
page is accepted and downloaded, whatever `--no-source` says; moreover
`--no-source` only removes the unconditional source-archive acceptance —
any candidate accepted with `--no-source` given is also accepted without
it, so the flag never by itself causes a rejection. -/
theorem c10_empty_filter :
    (∀ (file_name file : Str) (ns : Bool),
        processFile file_name ⟨[], [], ns⟩ file = true) ∧
    (∀ (file_name file : Str) (pt pv : List Str),
        processFile file_name ⟨pt, pv, true⟩ file = true →
        processFile file_name ⟨pt, pv, false⟩ file = true) := by
  constructor
  · intro fn file ns
    simp [processFile_eq]
  · intro fn file pt pv h
    rw [processFile_eq] at h ⊢
    simp only [Bool.not_true, Bool.and_false, Bool.false_or, Bool.or_false,
      Bool.not_false, Bool.and_true] at h ⊢
    rcases (Bool.or_eq_true _ _) ▸ h with h | h
    · simp [h]
    · simp [h]

theorem c10_empty_filter_witness :
    processFile (chars "pkg-1.0.tar.gz") ⟨[], [], true⟩
        (chars "pkg-1.0-cp39-cp39-win_amd64.whl") = true ∧
    processFile (chars "pkg-1.0.tar.gz") ⟨[], [], false⟩
        (chars "pkg-1.0-cp39-cp39-win_amd64.whl") = true :=
  ⟨c10_empty_filter.1 _ _ _,
   c10_empty_filter.2 _ _ _ _ (c10_empty_filter.1 _ _ _)⟩

/-- Claim C4: when both `platform_tags` and `python_versions` are non-empty
and neither unconditional-acceptance rule fires (the candidate does not
contain `none-any`, and the source-archive test of line 220 is false), a
candidate matching some platform tag but no python-version tag is rejected;
when no platform tag matches, the candidate is rejected with the same
outcome for every python-version axis (the code short-circuits with
`continue` before the python loop); and a single filter value matches by
substring containment: `platform_tags = ["manylinux"]` accepts any
candidate containing `manylinux2014_x86_64`. -/
theorem c4_filter_axes :
    (∀ (fn file : Str) (pt pv : List Str) (ns : Bool),
        pt ≠ [] → pv ≠ [] →
        subStr noneAny file = false →
        ((endsW tarGz fn || endsW zipExt fn) && !ns) = false →
        (∃ t ∈ pt, subStr t file = true) →
        (∀ v ∈ pv, subStr v file = false) →
        processFile fn ⟨pt, pv, ns⟩ file = false) ∧
    (∀ (fn file : Str) (pt : List Str) (ns : Bool),
        pt ≠ [] →
        subStr noneAny file = false →
        ((endsW tarGz fn || endsW zipExt fn) && !ns) = false →
        (∀ t ∈ pt, subStr t file = false) →
        ∀ pv : List Str, processFile fn ⟨pt, pv, ns⟩ file = false) ∧
    (∀ (fn file : Str) (ns : Bool),
        subStr (chars "manylinux2014_x86_64") file = true →
        processFile fn ⟨[chars "manylinux"], [], ns⟩ file = true) := by
  refine ⟨?_, ?_, ?_⟩
  · intro fn file pt pv ns hpt hpv h1 h2 hex hall
    have hplat : pt.any (fun t => subStr t file) = true :=
      List.any_eq_true.2 hex
    have hpy : pv.any (fun v => subStr v file) = false := by
      simp only [List.any_eq_false]
      intro v hv
      simp [hall v hv]
    simp [processFile_eq, h1, h2,
      isEmpty_false_of_ne_nil hpt, isEmpty_false_of_ne_nil hpv, hplat, hpy]
  · intro fn file pt ns hpt h1 h2 hall pv
    have hplat : pt.any (fun t => subStr t file) = false := by
      simp only [List.any_eq_false]
      intro t ht
      simp [hall t ht]
    simp [processFile_eq, h1, h2, isEmpty_false_of_ne_nil hpt, hplat]
  · intro fn file ns h
    have hm : subStr (chars "manylinux") file = true := by
      refine (subStr_iff _ _).2 (List.IsInfix.trans ?_ ((subStr_iff _ _).1 h))
      exact ((hasPre_iff (chars "manylinux") (chars "manylinux2014_x86_64")).1
        (by decide)).isInfix
    simp [processFile_eq, hm]

theorem c4_filter_axes_witness :
    processFile (chars "pkg-1.0-cp38-cp38-win_amd64.whl")
        ⟨[chars "win_amd64"], [chars "cp39"], false⟩
        (chars "pkg-1.0-cp38-cp38-win_amd64.whl") = false ∧
    processFile (chars "pkg-1.0-cp38-cp38-win_amd64.whl")
        ⟨[chars "win_amd64"], [chars "cp39"], false⟩
        (chars "pkg-1.0-cp39-cp39-linux_i386.whl") = false ∧
    processFile (chars "pkg-1.0-cp38-cp38-win_amd64.whl")
        ⟨[chars "manylinux"], [], false⟩
        (chars "pkg-1.0-cp39-cp39-manylinux2014_x86_64.whl") = true :=
  ⟨c4_filter_axes.1 _ _ _ _ _ (by decide) (by decide) (by decide) (by decide)
      ⟨chars "win_amd64", by decide, by decide⟩ (by decide),
   c4_filter_axes.2.1 _ _ _ _ (by decide) (by decide) (by decide) (by decide) _,
   c4_filter_axes.2.2 _ _ _ (by decide)⟩

/-- Claim C8: a materialized file whose name the classifier cannot resolve
(`resolve_package_file` returns a null name) produces exactly one warning
outcome and is skipped, while every other materialized file of the same
package is processed exactly as it would have been without it — the loop
continues instead of aborting the package. -/
theorem c8_unclassifiable_skip (classify : Str → Option Str)
    (candidatesOf : Str → List Str) (spec : FilterSpec)
    (xs ys : List Str) (bad : Str) (h : classify bad = none) :
    orchestrate classify candidatesOf spec (xs ++ bad :: ys) =
      orchestrate classify candidatesOf spec xs ++
        FileOutcome.warned bad :: orchestrate classify candidatesOf spec ys := by
  simp [orchestrate, h]

theorem c8_unclassifiable_skip_witness :
    orchestrate (fun fn => if fn = chars "strange" then none else some (chars "pkg"))
        (fun _ => [chars "pkg-1.0-py3-none-any.whl"]) ⟨[], [], false⟩
        ([chars "pkg-1.0.tar.gz"] ++ chars "strange" :: [chars "pkg-1.0.zip"]) =
      orchestrate (fun fn => if fn = chars "strange" then none else some (chars "pkg"))
          (fun _ => [chars "pkg-1.0-py3-none-any.whl"]) ⟨[], [], false⟩
          [chars "pkg-1.0.tar.gz"] ++
        FileOutcome.warned (chars "strange") ::
          orchestrate (fun fn => if fn = chars "strange" then none else some (chars "pkg"))
            (fun _ => [chars "pkg-1.0-py3-none-any.whl"]) ⟨[], [], false⟩
            [chars "pkg-1.0.zip"] :=
  c8_unclassifiable_skip _ _ _ _ _ _ (by decide)

/-- Claim C6: when the external resolver fails on the k-th package of a
batch the error is re-raised and the run terminates with that failure,
while the destination directory still holds exactly the files downloaded
for the packages processed before the k-th one. -/
theorem c6_batch_failfast (resolve : String → Option (List Str))
    (classify : Str → Option Str) (candidatesOf : Str → List Str)
    (spec : FilterSpec) (dest : List Str) (ps1 ps2 : List String) (k : String)
    (h1 : ∀ p ∈ ps1, (resolve p).isSome = true) (h2 : resolve k = none) :
    runBatch resolve classify candidatesOf spec dest (ps1 ++ k :: ps2) =
      .error (k, dest ++ batchDownloads resolve classify candidatesOf spec ps1) := by
  induction ps1 generalizing dest with
  | nil => simp [runBatch, batchDownloads, h2]
  | cons p ps ih =>
    have hp : (resolve p).isSome = true := h1 p (List.mem_cons_self p ps)
    obtain ⟨files, hf⟩ := Option.isSome_iff_exists.1 hp
    have hrest : ∀ q ∈ ps, (resolve q).isSome = true := fun q hq =>
      h1 q (List.mem_cons_of_mem _ hq)
    simp only [List.cons_append, runBatch, hf, List.append_eq]
    rw [ih (dest ++ packageDownloads classify candidatesOf spec files) hrest]
    simp [batchDownloads, hf]

theorem c6_batch_failfast_witness :
    runBatch (fun p => if p = "bad" then none else some [chars "good-1.0.tar.gz"])
        (fun _ => some (chars "good")) (fun _ => [chars "good-1.0-py3-none-any.whl"])
        ⟨[], [], false⟩ [] (["good"] ++ "bad" :: []) =
      .error ("bad", [] ++
        batchDownloads (fun p => if p = "bad" then none else some [chars "good-1.0.tar.gz"])
          (fun _ => some (chars "good")) (fun _ => [chars "good-1.0-py3-none-any.whl"])
          ⟨[], [], false⟩ ["good"]) :=
  c6_batch_failfast _ _ _ _ _ _ _ _ (by decide) (by decide)

/-- Claim C7: with no explicit filter flags on the command line, a run whose
persisted configuration file holds malformed JSON produces exactly the same
effective FilterSpec as a run with an absent configuration file, and that
FilterSpec is empty on both the platform and the python-version axis; the
decode error is swallowed (the model is total), never fatal. -/
theorem c7_malformed_config (ns : Bool) :
    effectiveFilterSpec .malformed ⟨[], [], []⟩ ns =
        effectiveFilterSpec .absent ⟨[], [], []⟩ ns ∧
    (effectiveFilterSpec .malformed ⟨[], [], []⟩ ns).platform_tags = [] ∧
    (effectiveFilterSpec .malformed ⟨[], [], []⟩ ns).python_versions = [] :=
  ⟨rfl, rfl, rfl⟩

/-- Claim C9: when the host timezone is one of the configured zone
identifiers the index URL used for the rest of the run is the regional
mirror; for any other timezone the supplied (or default) index URL is used
unchanged. -/
theorem c9_timezone_mirror :
    (∀ tz url : String, tz ∈ mirrorZones → effectiveIndexUrl tz url = aliyunMirror) ∧
    (∀ tz url : String, tz ∉ mirrorZones → effectiveIndexUrl tz url = url) := by
  refine ⟨fun tz url h => ?_, fun tz url h => ?_⟩
  · simp [effectiveIndexUrl, h]
  · simp [effectiveIndexUrl, h]

theorem c9_timezone_mirror_witness :
    effectiveIndexUrl "Asia/Shanghai" "https://pypi.org/simple" = aliyunMirror ∧
    effectiveIndexUrl "Europe/Berlin" "https://pypi.org/simple" =
      "https://pypi.org/simple" :=
  ⟨c9_timezone_mirror.1 _ _ (by decide), c9_timezone_mirror.2 _ _ (by decide)⟩

/-- Counterexample to claim C3: the specifier `foo` given both positionally
and via the requirements file appears twice in the processed sequence, so
it is fetched twice, not exactly once. -/
theorem c3_duplicate_counterexample :
    batchSpecs ["foo"] ["foo"] = ["foo", "foo"] ∧
    (batchSpecs ["foo"] ["foo"]).count "foo" ≠ 1 := by
  refine ⟨rfl, ?_⟩
  decide

/-- Claim C3 amended: duplicates are removed only among the
requirements-file-derived specifiers (they form a set); the batch driver
then processes that set chained with the positional tuple as given, so a
specifier is fetched once if it occurs in the requirements file, plus once
for every positional occurrence — a specifier appearing in both places is
fetched twice. -/
theorem c3_chain_multiplicity (reqEntries packages : List String) (s : String) :
    (batchSpecs reqEntries packages).count s =
      (if s ∈ reqEntries then 1 else 0) + packages.count s := by
  simp [batchSpecs, List.count_append, List.count_dedup]

/-- Claim C1 fails on the code (code bug): the source-archive acceptance at
cli.py line 220 tests `file_name` — the file that `pip download`
materialized in the temporary directory — instead of the candidate `file`
from the index page (which the commented-out lines 223-228 used to test).
When the materialized file is a wheel, a `.tar.gz` candidate is NOT
accepted unconditionally even though `--no-source` was not given, and here
is rejected by the platform filter; conversely, when the materialized file
is itself a source archive, every candidate — wheel or not, matching the
filter or not — is downloaded. -/
theorem c1_source_rule_evaluation :
    endsW tarGz (chars "foo-1.0.tar.gz") = true ∧
    processFile (chars "foo-1.0-cp39-cp39-win_amd64.whl")
        ⟨[chars "win_amd64"], [], false⟩ (chars "foo-1.0.tar.gz") = false ∧
    processFile (chars "foo-1.0.tar.gz")
        ⟨[chars "win_amd64"], [], false⟩
        (chars "bar-2.0-cp27-cp27m-linux_i386.whl") = true := by
  refine ⟨by decide, by decide, by decide⟩

/-- Claim C2 fails on the code (code bug): the guard at cli.py line 140 is
`not whl_suffixes or not platform_tags`, so when a settings file exists and
`--suffix` is not given, the persisted `platform_tags` overwrite the
CLI-supplied `--platform-tag` values: with config
`platform_tags = ["manylinux1_x86_64"]` and command line
`--platform-tag win_amd64`, the effective platform filter is the config
value, not the CLI value. -/
theorem c2_config_merge_evaluation :
    mergeFilterOptions (.valid ⟨none, some [chars "manylinux1_x86_64"]⟩)
        ⟨[], [chars "win_amd64"], []⟩ =
      (none, some [chars "manylinux1_x86_64"]) ∧
    (effectiveFilterSpec (.valid ⟨none, some [chars "manylinux1_x86_64"]⟩)
        ⟨[], [chars "win_amd64"], []⟩ false).platform_tags ≠
      [chars "win_amd64"] := by
  refine ⟨rfl, ?_⟩
  decide
